import Mathlib

/-!
Verification of the LegalBot AI agent-orchestration core.

Shallow embedding of the relevant parts of the repository:
  - `app/agent/graph.py` (`call_model`, `should_continue`)
  - `app/agent/legal_tools.py` (`legal_assistant` vector-search phase, `calculate_fee`)
  - `app/api/v1/chat.py` (`chat_endpoint`, `upload_pdf`, `websocket_endpoint`)

Machine strings are Lean `String`; fallible code is `Except`; the event loop of the
WebSocket handler is modelled as a pure function from the sequence of agent-stream
events (plus the point of failure or disconnect, if any) to the sequence of outward
events.
-/

namespace LegalBot

/-! ## String helpers: Python's `in` (substring) test -/

/-- Boolean prefix test on character lists (Python `s.startswith(pat)` over list data). -/
def listPrefixOf : List Char → List Char → Bool
  | [], _ => true
  | _ :: _, [] => false
  | a :: pat, b :: s => a == b && listPrefixOf pat s

/-- Boolean substring test on character lists (Python's `pat in s`). -/
def listContains (pat : List Char) : List Char → Bool
  | [] => listPrefixOf pat []
  | s@(_ :: rest) => listPrefixOf pat s || listContains pat rest

/-- Python's `pat in s` on strings. -/
def containsSubstr (pat s : String) : Bool :=
  listContains pat.data s.data

theorem listPrefixOf_append (pat a b : List Char) (h : listPrefixOf pat a = true) :
    listPrefixOf pat (a ++ b) = true := by
  induction pat generalizing a with
  | nil => rfl
  | cons c cs ih =>
    cases a with
    | nil => simp [listPrefixOf] at h
    | cons d ds =>
      simp only [listPrefixOf, Bool.and_eq_true] at h
      simp only [List.cons_append, listPrefixOf, Bool.and_eq_true]
      exact ⟨h.1, ih ds h.2⟩

theorem listContains_of_listPrefixOf (pat l : List Char) (h : listPrefixOf pat l = true) :
    listContains pat l = true := by
  cases l with
  | nil => simpa [listContains] using h
  | cons c cs => simp [listContains, h]

/-! ## `should_continue` (app/agent/graph.py lines 157-168)

```python
def should_continue(state: AgentState):
    messages = state["messages"]
    if not messages: return END
    last_message = messages[-1]
    tool_calls = [m for m in messages if hasattr(m, 'tool_calls') and m.tool_calls]
    if len(tool_calls) > 4:
        return END
    if hasattr(last_message, 'tool_calls') and last_message.tool_calls:
        return "tools"
    return END
```
-/

/-- A message in the graph state; `hasToolCalls` models
`hasattr(m, 'tool_calls') and m.tool_calls` being truthy. -/
structure GraphMsg where
  hasToolCalls : Bool
  deriving DecidableEq

/-- The routing outcome of the conditional edge: the `"tools"` node or `END`. -/
inductive Route where
  | tools
  | END
  deriving DecidableEq

def should_continue (messages : List GraphMsg) : Route :=
  if messages.isEmpty then Route.END
  else
    let last_message := messages.getLastD ⟨false⟩
    let tool_calls := messages.filter (fun m => m.hasToolCalls)
    if tool_calls.length > 4 then Route.END
    else if last_message.hasToolCalls then Route.tools
    else Route.END

/-! ## `call_model` fallback loop (app/agent/graph.py lines 122-155)

Each backend of `models_to_try` is modelled by its name and the outcome of
`await model.ainvoke(...)` for the one call this turn makes: `Except.ok` a
response or `Except.error` the raised exception's text.  In the Python loop
every `except Exception` branch ends in `continue` (not-found, rate limit, and
the catch-all alike), so a failing backend always falls through to the next. -/

structure ModelResponse where
  content : String
  deriving DecidableEq

structure Backend where
  name : String
  invoke : Except String ModelResponse

/-- The apology content of the synthetic `AIMessage` built when all models failed
(graph.py line 155). -/
def apologyMessage : String :=
  "⚠️ Hệ thống AI hiện đang chịu tải cao. Vui lòng thử lại sau giây lát hoặc làm mới trang."

/-- The `for model_name, model in models_to_try` loop: returns the list of backends
attempted (in order) and the first successful response, if any. -/
def runFallbackChain : List Backend → List String × Option ModelResponse
  | [] => ([], none)
  | b :: rest =>
    match b.invoke with
    | Except.ok r => ([b.name], some r)
    | Except.error _ =>
      let t := runFallbackChain rest
      (b.name :: t.1, t.2)

/-- `call_model`'s result for the turn: the attempted-backend trace and the message
returned to the graph (the successful backend's response, or the apology). -/
def call_model (models_to_try : List Backend) : List String × ModelResponse :=
  match runFallbackChain models_to_try with
  | (trace, some r) => (trace, r)
  | (trace, none) => (trace, ⟨apologyMessage⟩)

theorem runFallbackChain_all_fail (bs : List Backend)
    (h : ∀ b ∈ bs, ∃ e, b.invoke = Except.error e) :
    runFallbackChain bs = (bs.map Backend.name, none) := by
  induction bs with
  | nil => rfl
  | cons b rest ih =>
    obtain ⟨e, he⟩ := h b (List.mem_cons_self b rest)
    have hrest := ih (fun x hx => h x (List.mem_cons_of_mem b hx))
    simp [runFallbackChain, he, hrest]

theorem runFallbackChain_prefix_fail (pre rest : List Backend)
    (h : ∀ p ∈ pre, ∃ e, p.invoke = Except.error e) :
    runFallbackChain (pre ++ rest) =
      (pre.map Backend.name ++ (runFallbackChain rest).1, (runFallbackChain rest).2) := by
  induction pre with
  | nil => rfl
  | cons p ps ih =>
    obtain ⟨e, he⟩ := h p (List.mem_cons_self p ps)
    have hps := ih (fun x hx => h x (List.mem_cons_of_mem p hx))
    simp [runFallbackChain, he, hps]

/-! ## `calculate_fee` (app/agent/legal_tools.py lines 423-498)

The fee table and messages are transcribed verbatim; `matched.upper()` and
`service.lower()` are modelled by Lean's ASCII `String.toUpper`/`String.toLower`
(the keys are already lower-case, and the claim settled here does not depend on
case folding of accented characters). -/

def fee_table : List (String × List (String × String)) :=
  [("đăng ký kinh doanh",
     [("Hộ kinh doanh", "50,000 VNĐ"),
      ("Công ty TNHH", "300,000 VNĐ"),
      ("Công ty cổ phần", "500,000 VNĐ"),
      ("Doanh nghiệp tư nhân", "100,000 VNĐ")]),
   ("ly hôn",
     [("Ly hôn thuận tình (UBND)", "0 VNĐ (miễn phí)"),
      ("Ly hôn có tranh chấp (Tòa án)", "200,000 - 500,000 VNĐ"),
      ("Phí luật sư (nếu thuê)", "5,000,000 - 20,000,000 VNĐ")]),
   ("công chứng",
     [("Hợp đồng mua bán đất (< 100m²)", "500,000 VNĐ"),
      ("Hợp đồng mua bán đất (100-300m²)", "1,000,000 VNĐ"),
      ("Hợp đồng vay tiền", "0.5% giá trị (tối thiểu 50k)"),
      ("Di chúc", "50,000 - 200,000 VNĐ")]),
   ("giấy phép lái xe",
     [("Cấp mới/Đổi GPLX", "135,000 VNĐ"),
      ("Khám sức khỏe", "~300,000 VNĐ")]),
   ("hộ chiếu",
     [("Hộ chiếu thường (cấp tại địa phương)", "200,000 VNĐ"),
      ("Cấp lại do bị mất/hư hỏng", "400,000 VNĐ"),
      ("Gia hạn hộ chiếu", "100,000 VNĐ")]),
   ("visa",
     [("E-visa 30 ngày (nhập cảnh 1 lần)", "25 USD"),
      ("Visa 90 ngày (nhập cảnh nhiều lần)", "50 USD"),
      ("Thẻ tạm trú (1-3 năm)", "145 - 155 USD")])]

def calculate_fee (service details : String) : String :=
  let service_lower := service.toLower
  match fee_table.find? (fun kv => containsSubstr kv.1 service_lower) with
  | some kv =>
    let header := "### Lệ phí: " ++ kv.1.toUpper ++ "\n\n"
    let body := kv.2.foldl (fun acc p => acc ++ "- **" ++ p.1 ++ ":** " ++ p.2 ++ "\n") header
    body ++ "\n📌 **Lưu ý:** Phí có thể thay đổi, nên kiểm tra với cơ quan trực tiếp."
  | none =>
    "Chưa có thông tin lệ phí cho \"" ++ service ++ "\".\n\n**Các dịch vụ có thể tra:**\n- Đăng ký kinh doanh\n- Ly hôn\n- Công chứng\n- Giấy phép lái xe\n- Hộ chiếu\n\nVui lòng chọn một trong các dịch vụ trên."

/-! ## `legal_assistant` vector-search phase (app/agent/legal_tools.py lines 304-357)

When the query misses the built-in knowledge base, the tool embeds the query and
queries the Pinecone index.  The phase is parameterised by the outcome of the
external calls inside the inner `try` (lines 304-353):
  - `noIndex`: `resources.get_index()` returned a falsy value (line 309);
  - `raised e`: embedding or querying raised an exception, caught at line 351;
  - `results ms`: `index.query(...)` returned the matches `ms` (an empty list also
    covers a falsy `results` object, line 325).
Match scores are floats formatted as whole percentages (`{score:.0%}` in Python);
they are modelled as the integer percentage `scorePercent`. -/

structure VMatch where
  text : String
  source : String
  scorePercent : Nat
  deriving DecidableEq

inductive VectorOutcome where
  | noIndex
  | raised (err : String)
  | results (found : List VMatch)

/-- The in-band fallback marker the prompt contract keys on. -/
def FALLBACK_SIGNAL : String := "[FALLBACK_SIGNAL]"

/-- Line 310: returned when `resources.get_index()` is falsy. -/
def noIndexText : String :=
  "⚠️ Xin lỗi, hệ thống tra cứu đang tạm thời không khả dụng. Vui lòng thử lại sau."

/-- Lines 326-328: returned when the index yields zero matches. -/
def noMatchesText (query : String) : String :=
  "[FALLBACK_SIGNAL] Tôi chưa tìm thấy thông tin chi tiết về \"" ++ query ++
    "\" trong cơ sở dữ liệu luật nội bộ.\n                \nBạn vui lòng sử dụng công cụ `web_search` để tìm kiếm thông tin mới nhất trên internet hoặc hỏi về các dịch vụ phổ biến: GPLX, Kết hôn, Ly hôn, ĐK Kinh doanh."

/-- Line 353: returned when embedding or querying raised. -/
def vectorErrorText : String :=
  "[FALLBACK_SIGNAL] Hệ thống tra cứu nội bộ đang gặp sự cố. Vui lòng sử dụng công cụ `web_search` để tìm kiếm từ internet hoặc diễn đạt lại câu hỏi."

/-- Lines 332-340: one formatted result block. -/
def formatVMatch (i : Nat) (m : VMatch) : String :=
  "### Kết quả " ++ toString i ++ " (Độ liên quan: " ++ toString m.scorePercent ++
    "%)\n**Nguồn:** " ++ m.source ++ "\n**Nội dung:** " ++ m.text.take 800 ++ "..."

/-- The text `legal_assistant` returns from its vector-search phase. -/
def vector_search_response (query : String) (outcome : VectorOutcome) : String :=
  match outcome with
  | VectorOutcome.noIndex => noIndexText
  | VectorOutcome.raised _ => vectorErrorText
  | VectorOutcome.results ms =>
    if ms.isEmpty then noMatchesText query
    else
      let formatted := (ms.take 3).enum.map (fun p => formatVMatch (p.1 + 1) p.2)
      "Dựa trên tài liệu pháp luật, tôi tìm thấy thông tin sau:\n\n" ++
        String.intercalate "\n\n" formatted ++
        "\n\n💡 **Lưu ý:** Đây là tham khảo chung. Nên liên hệ cơ quan có thẩm quyền để biết chính xác."

/-! ## `upload_pdf` context accumulation (app/api/v1/chat.py lines 241-253)

```python
updated_context = existing_pdf_context + f"\n\n--- DOCUMENT: {file.filename} ---\n{text}"
await agent_executor.aupdate_state(config, {"pdf_context": updated_context})
```
-/

def docSeparator (filename : String) : String :=
  "\n\n--- DOCUMENT: " ++ filename ++ " ---\n"

/-- The new `pdf_context` written into the agent state by one upload. -/
def upload_pdf_update (existing_pdf_context filename text : String) : String :=
  existing_pdf_context ++ docSeparator filename ++ text

/-! ## Conversation-history fetch (app/api/v1/chat.py lines 72-81 and 353-366)

Both the synchronous endpoint and the WebSocket endpoint issue the same query:

```python
supabase.table("messages").select("role, content")
    .eq("conversation_id", conversation_id)
    .order("created_at", desc=False).limit(20).execute()
```

PostgREST applies the ordering first and the limit afterwards, so the query
returns the FIRST 20 rows in ascending `created_at` order.  The stored rows of
the conversation are modelled as a list of `DBMessage`; the query is sorting by
`created_at` followed by `take 20`. -/

structure DBMessage where
  createdAt : Nat
  role : String
  content : String
  deriving DecidableEq

def insertByCreatedAt (m : DBMessage) : List DBMessage → List DBMessage
  | [] => [m]
  | x :: xs => if m.createdAt ≤ x.createdAt then m :: x :: xs else x :: insertByCreatedAt m xs

/-- `order("created_at", desc=False)`. -/
def sortByCreatedAt (l : List DBMessage) : List DBMessage :=
  l.foldr insertByCreatedAt []

/-- The rows returned by the history query of either endpoint. -/
def fetchHistory (stored : List DBMessage) : List DBMessage :=
  (sortByCreatedAt stored).take 20

/-- Modelled from the spec: "fetch ordered history up to a bounded window, e.g.
most recent 20" — the 20 messages with the greatest `created_at`, in ascending
order.  Stated only to be compared against `fetchHistory`. -/
def mostRecentWindow (stored : List DBMessage) : List DBMessage :=
  (sortByCreatedAt stored).drop ((sortByCreatedAt stored).length - 20)

/-- The endpoints' write access: `insert` of new message rows (chat.py lines
119-131, 395-406, 498-506), which appends to the stored rows. -/
def saveMessages (stored newMessages : List DBMessage) : List DBMessage :=
  stored ++ newMessages

/-! ## WebSocket turn (app/api/v1/chat.py lines 344-515)

One iteration of the `while True` receive loop, from the `start` event to the
terminal event.  The stream of `astream_events` items is modelled by
`AgentEvent`; `websocket_endpoint` turns it into outward `OutEvent`s.  A turn
ends in one of three ways (`TurnEnding`):
  - `completed`: the stream was consumed in full and `end` is sent;
  - `failedAfter k err`: iterating the stream raised after `k` items were
    consumed; the handler at lines 479-485 sends an `error` event and `continue`s
    (no `end`);
  - `disconnectedAfter k`: `WebSocketDisconnect` after `k` items; the handler at
    lines 476-478 returns without any terminal event. -/

/-- A flattened `on_chat_model_stream` chunk: `toolCallChunks` models a non-empty
`chunk.tool_call_chunks`, `kwargsToolCalls` a truthy
`chunk.additional_kwargs.get('tool_calls')`, and `content` the chunk content
flattened to a string (lines 445-447). -/
structure Chunk where
  toolCallChunks : Bool
  kwargsToolCalls : Bool
  content : String
  deriving DecidableEq

inductive AgentEvent where
  | toolStart (name : String) (input : String)
  | toolEnd (name : String)
  | chatStream (c : Chunk)
  | otherEvent
  deriving DecidableEq

inductive OutEvent where
  | meta (conversation_id : String)
  | start
  | status (content : String)
  | token (content : String)
  | error (content : String)
  | end_ (full_content : String)
  deriving DecidableEq

/-- The contribution of one stream item to (events sent, `full_response`,
`tokens_streamed`) — lines 426-455.  No branch of the Python loop body reads the
accumulated state, so the loop is the concatenation of these contributions. -/
def chunkOut : AgentEvent → List OutEvent × String × Nat
  | AgentEvent.toolStart name _ => ([OutEvent.status ("Running tool: " ++ name ++ "...")], "", 0)
  | AgentEvent.toolEnd _ => ([], "", 0)
  | AgentEvent.chatStream c =>
    if c.toolCallChunks then ([], "", 0)
    else if c.kwargsToolCalls && (c.content == "") then ([], "", 0)
    else if c.content == "" then ([], "", 0)
    else ([OutEvent.token c.content], c.content, 1)
  | AgentEvent.otherEvent => ([], "", 0)

/-- Events sent, `full_response` and `tokens_streamed` after consuming the given
stream items. -/
def processEvents : List AgentEvent → List OutEvent × String × Nat
  | [] => ([], "", 0)
  | e :: rest =>
    let h := chunkOut e
    let t := processEvents rest
    (h.1 ++ t.1, h.2.1 ++ t.2.1, h.2.2 + t.2.2)

inductive TurnEnding where
  | completed
  | failedAfter (consumed : Nat) (err : String)
  | disconnectedAfter (consumed : Nat)

/-- The `meta` event sent at lines 386-389 when a new conversation was created. -/
def metaEvents (newConversation : Option String) : List OutEvent :=
  match newConversation with
  | some cid => [OutEvent.meta cid]
  | none => []

/-- The no-stream fallback of lines 457-474: when nothing was streamed, the
non-empty content of the finalized state's last message, if available. -/
def noStreamFallback (acc : List OutEvent × String × Nat)
    (finalStateMessages : Option (List String)) : Option String :=
  if acc.2.2 == 0 && (acc.2.1 == "") then
    match finalStateMessages with
    | some msgs =>
      match msgs.getLast? with
      | some c => if c == "" then none else some c
      | none => none
    | none => none
  else none

/-- The outward event sequence of one WebSocket turn.  `newConversation` is
`some cid` when lines 372-389 created conversation `cid` and sent `meta`;
`finalStateMessages` is the message-content list of the checkpointed state read
by the no-stream fallback (lines 457-474), or `none` when reading it raised. -/
def websocketTurn (newConversation : Option String) (stream : List AgentEvent)
    (ending : TurnEnding) (finalStateMessages : Option (List String)) : List OutEvent :=
  match ending with
  | TurnEnding.disconnectedAfter k =>
    metaEvents newConversation ++ OutEvent.start :: (processEvents (stream.take k)).1
  | TurnEnding.failedAfter k err =>
    metaEvents newConversation ++ OutEvent.start ::
      ((processEvents (stream.take k)).1 ++ [OutEvent.error ("Lỗi hệ thống AI: " ++ err.take 100)])
  | TurnEnding.completed =>
    match noStreamFallback (processEvents stream) finalStateMessages with
    | some c =>
      metaEvents newConversation ++ OutEvent.start ::
        ((processEvents stream).1 ++ [OutEvent.token c, OutEvent.end_ c])
    | none =>
      metaEvents newConversation ++ OutEvent.start ::
        ((processEvents stream).1 ++ [OutEvent.end_ (processEvents stream).2.1])

/-- `status` and `token` are the only events allowed between `start` and the
terminal event. -/
def isMid : OutEvent → Bool
  | OutEvent.status _ => true
  | OutEvent.token _ => true
  | _ => false

def isEndEvent : OutEvent → Bool
  | OutEvent.end_ _ => true
  | _ => false

def isErrorEvent : OutEvent → Bool
  | OutEvent.error _ => true
  | _ => false

/-! ## `chat_endpoint` (app/api/v1/chat.py lines 51-158)

The synchronous POST /chat handler.  External calls are parameterised:
  - `convCheck`: outcome of the ownership query at lines 61-65 — `ok true` when
    `conv_check.data` is non-empty, `ok false` when empty, `error` when the query
    itself raised;
  - `messagesFetch`: outcome of the history query at lines 73-81;
  - `agent`: `agent_executor.ainvoke` reduced to the final assistant text.
The body of lines 59-84 sits inside `try ... except Exception as db_error`, so
any exception raised there — including the `HTTPException(403)` of line 70 —
is caught and the request proceeds with whatever `history_messages` holds. -/

inductive PyError where
  | http (status : Nat) (detail : String)
  | db (msg : String)
  deriving DecidableEq

/-- The inner `try` body of lines 59-81: raise 403 when the ownership check finds
no row, otherwise return the fetched history. -/
def historyFetchBlock (convCheck : Except PyError Bool)
    (messagesFetch : Except PyError (List (String × String))) :
    Except PyError (List (String × String)) :=
  match convCheck with
  | Except.error e => Except.error e
  | Except.ok owned =>
    if owned then messagesFetch
    else Except.error (PyError.http 403 "Access denied to conversation")

/-- The `except Exception as db_error` handler of lines 82-84: log and continue,
leaving `history_messages` empty. -/
def caughtHistory (r : Except PyError (List (String × String))) : List (String × String) :=
  match r with
  | Except.ok h => h
  | Except.error _ => []

structure ChatOutcome where
  httpStatus : Nat
  response : String
  savedMessages : List (String × String × String)
  deriving DecidableEq

/-- The synchronous endpoint: fetch (guarded) history, invoke the agent on
history plus the new user message, save both new messages under the conversation
id (lines 105-137; `createdId` is the id a fresh conversation insert would
return when no id was supplied), and answer 200 with the assistant text. -/
def chat_endpoint (conversation_id : Option String) (supabaseConfigured : Bool)
    (convCheck : Except PyError Bool) (messagesFetch : Except PyError (List (String × String)))
    (agent : List (String × String) → String) (userMessage : String)
    (createdId : Option String) : ChatOutcome :=
  let history :=
    if conversation_id.isSome && supabaseConfigured then
      caughtHistory (historyFetchBlock convCheck messagesFetch)
    else []
  let input := history ++ [("user", userMessage)]
  let assistant_response := agent input
  let finalId := match conversation_id with
    | some cid => some cid
    | none => createdId
  let saved :=
    if supabaseConfigured then
      match finalId with
      | some cid => [(cid, "user", userMessage), (cid, "assistant", assistant_response)]
      | none => []
    else []
  ⟨200, assistant_response, saved⟩

/-! ## Shared helper lemmas -/

theorem listPrefixOf_refl (l : List Char) : listPrefixOf l l = true := by
  induction l with
  | nil => rfl
  | cons c cs ih => simp [listPrefixOf, ih]

theorem chunkOut_mid (a : AgentEvent) : ∀ e ∈ (chunkOut a).1, isMid e = true := by
  intro e h
  cases a with
  | toolStart n i =>
    simp only [chunkOut, List.mem_singleton] at h
    subst h; rfl
  | toolEnd n => simp [chunkOut] at h
  | otherEvent => simp [chunkOut] at h
  | chatStream c =>
    simp only [chunkOut] at h
    split at h
    · simp at h
    · split at h
      · simp at h
      · split at h
        · simp at h
        · simp only [List.mem_singleton] at h
          subst h; rfl

theorem processEvents_mid (l : List AgentEvent) : ∀ e ∈ (processEvents l).1, isMid e = true := by
  induction l with
  | nil => intro e h; simp [processEvents] at h
  | cons a rest ih =>
    intro e h
    simp only [processEvents, List.mem_append] at h
    rcases h with h | h
    · exact chunkOut_mid a e h
    · exact ih e h

theorem chunkOut_zero_full (a : AgentEvent) :
    (chunkOut a).2.2 = 0 → (chunkOut a).2.1 = "" := by
  cases a with
  | toolStart n i => intro _; rfl
  | toolEnd n => intro _; rfl
  | otherEvent => intro _; rfl
  | chatStream c =>
    simp only [chunkOut]
    split
    · intro _; rfl
    · split
      · intro _; rfl
      · split
        · intro _; rfl
        · intro h; exact absurd h one_ne_zero

theorem processEvents_zero_full (l : List AgentEvent) :
    (processEvents l).2.2 = 0 → (processEvents l).2.1 = "" := by
  induction l with
  | nil => intro _; rfl
  | cons a rest ih =>
    simp only [processEvents]
    intro h
    have ha : (chunkOut a).2.2 = 0 := by omega
    have hb : (processEvents rest).2.2 = 0 := by omega
    rw [chunkOut_zero_full a ha, ih hb]
    rfl

theorem isMid_not_terminal {e : OutEvent} (h : isMid e = true) :
    isEndEvent e = false ∧ isErrorEvent e = false := by
  cases e <;> simp [isMid, isEndEvent, isErrorEvent] at h ⊢

theorem mids_filter_end (mids : List OutEvent) (h : ∀ e ∈ mids, isMid e = true) :
    mids.filter isEndEvent = [] := by
  induction mids with
  | nil => rfl
  | cons e rest ih =>
    have he := (isMid_not_terminal (h e (List.mem_cons_self _ _))).1
    have hrest := ih (fun x hx => h x (List.mem_cons_of_mem _ hx))
    simp [List.filter_cons, he, hrest]

theorem mids_filter_error (mids : List OutEvent) (h : ∀ e ∈ mids, isMid e = true) :
    mids.filter isErrorEvent = [] := by
  induction mids with
  | nil => rfl
  | cons e rest ih =>
    have he := (isMid_not_terminal (h e (List.mem_cons_self _ _))).2
    have hrest := ih (fun x hx => h x (List.mem_cons_of_mem _ hx))
    simp [List.filter_cons, he, hrest]

theorem shape_count (newConv : Option String) (mids term : List OutEvent)
    (hmids : ∀ e ∈ mids, isMid e = true)
    (hterm : (term.filter isEndEvent).length + (term.filter isErrorEvent).length ≤ 1) :
    (((metaEvents newConv ++ OutEvent.start :: (mids ++ term)).filter isEndEvent).length +
      ((metaEvents newConv ++ OutEvent.start :: (mids ++ term)).filter isErrorEvent).length ≤ 1) := by
  have h1 := mids_filter_end mids hmids
  have h2 := mids_filter_error mids hmids
  have hm1 : (metaEvents newConv).filter isEndEvent = [] := by
    cases newConv <;> simp [metaEvents, isEndEvent]
  have hm2 : (metaEvents newConv).filter isErrorEvent = [] := by
    cases newConv <;> simp [metaEvents, isErrorEvent]
  simpa [List.filter_append, List.filter_cons, isEndEvent, isErrorEvent, hm1, hm2, h1, h2]
    using hterm

theorem mem_insertByCreatedAt (m x : DBMessage) (l : List DBMessage) :
    m ∈ insertByCreatedAt x l ↔ m = x ∨ m ∈ l := by
  induction l with
  | nil => simp [insertByCreatedAt]
  | cons y ys ih =>
    simp only [insertByCreatedAt]
    split
    · simp
    · simp [ih]
      tauto

theorem mem_sortByCreatedAt (m : DBMessage) (l : List DBMessage) :
    m ∈ sortByCreatedAt l ↔ m ∈ l := by
  induction l with
  | nil => simp [sortByCreatedAt]
  | cons x xs ih =>
    show m ∈ insertByCreatedAt x (sortByCreatedAt xs) ↔ _
    rw [mem_insertByCreatedAt, ih]
    simp

/-! ## Claim theorems -/

/-- C1: Tool-call ceiling — for every message history whose prior part contains
more than 4 tool-call-bearing messages (in particular, 5 of them), appending any
latest model response makes `should_continue` return `END`, whatever tool calls
that response requests. -/
theorem tool_call_ceiling (prior : List GraphMsg) (last : GraphMsg)
    (h : 4 < (prior.filter (fun m => m.hasToolCalls)).length) :
    should_continue (prior ++ [last]) = Route.END := by
  have hne : (prior ++ [last]).isEmpty = false := by simp
  simp [should_continue, hne]
  intro hle
  exact absurd hle (by omega)

/-- C1 witness: with 5 prior tool-call-bearing messages, the loop routes to `END`
even though the latest response requests tool calls. -/
theorem tool_call_ceiling_witness :
    4 < ((List.replicate 5 (⟨true⟩ : GraphMsg)).filter (fun m => m.hasToolCalls)).length ∧
    should_continue (List.replicate 5 (⟨true⟩ : GraphMsg) ++ [⟨true⟩]) = Route.END :=
  ⟨by decide, tool_call_ceiling _ _ (by decide)⟩

/-- C3: All-fail safety — when every backend of the chain fails, `call_model`
returns the fixed apology message as a synthetic successful response (and, being
a total function of the backends' outcomes, it propagates no exception). -/
theorem call_model_all_fail (bs : List Backend)
    (h : ∀ b ∈ bs, ∃ e, b.invoke = Except.error e) :
    (call_model bs).2 = ⟨apologyMessage⟩ := by
  simp [call_model, runFallbackChain_all_fail bs h]

def demoFailChain : List Backend :=
  [⟨"Llama 3.3 70B", Except.error "404 not found"⟩,
   ⟨"Llama 3.1 8B", Except.error "429 rate limit"⟩,
   ⟨"Gemini 2.5 Flash", Except.error "overloaded"⟩]

/-- C3 witness: all three concrete backends fail and the apology is returned. -/
theorem call_model_all_fail_witness :
    (∀ b ∈ demoFailChain, ∃ e, b.invoke = Except.error e) ∧
    (call_model demoFailChain).2 = ⟨apologyMessage⟩ := by
  have h : ∀ b ∈ demoFailChain, ∃ e, b.invoke = Except.error e := by
    intro b hb
    simp only [demoFailChain, List.mem_cons, List.not_mem_nil, or_false] at hb
    rcases hb with h1 | h1 | h1 <;> subst h1 <;> exact ⟨_, rfl⟩
  exact ⟨h, call_model_all_fail _ h⟩

/-- C4: Fallback ordering — for any chain where all earlier backends fail (for
whatever reason: in the code every `except` branch continues) and backend `b`
succeeds with `r`, `call_model` attempts exactly the failing earlier backends
once each, in order, then `b`, returns `r`, and never attempts a backend after
`b`. -/
theorem call_model_priority_order (pre post : List Backend) (b : Backend) (r : ModelResponse)
    (hpre : ∀ p ∈ pre, ∃ e, p.invoke = Except.error e)
    (hb : b.invoke = Except.ok r) :
    call_model (pre ++ b :: post) = (pre.map Backend.name ++ [b.name], r) := by
  have h1 := runFallbackChain_prefix_fail pre (b :: post) hpre
  have h2 : runFallbackChain (b :: post) = ([b.name], some r) := by
    simp [runFallbackChain, hb]
  simp [call_model, h1, h2]

def demoMixedPre : List Backend :=
  [⟨"Llama 3.3 70B", Except.error "model not found"⟩,
   ⟨"Llama 3.1 8B", Except.error "429 rate limit"⟩]

/-- C4 witness: not-found then rate-limited then a succeeding backend — the
successful response is returned, the two failures were each attempted once in
order, and the backend after the success is never attempted. -/
theorem call_model_priority_order_witness :
    (∀ p ∈ demoMixedPre, ∃ e, p.invoke = Except.error e) ∧
    call_model (demoMixedPre ++ ⟨"Gemini 2.5 Flash", Except.ok ⟨"Kết quả"⟩⟩ ::
        [⟨"Backup", Except.error "unused"⟩]) =
      (["Llama 3.3 70B", "Llama 3.1 8B", "Gemini 2.5 Flash"], ⟨"Kết quả"⟩) := by
  have h : ∀ p ∈ demoMixedPre, ∃ e, p.invoke = Except.error e := by
    intro p hp
    simp only [demoMixedPre, List.mem_cons, List.not_mem_nil, or_false] at hp
    rcases hp with h1 | h1 <;> subst h1 <;> exact ⟨_, rfl⟩
  exact ⟨h, call_model_priority_order demoMixedPre [⟨"Backup", Except.error "unused"⟩]
    ⟨"Gemini 2.5 Flash", Except.ok ⟨"Kết quả"⟩⟩ ⟨"Kết quả"⟩ h rfl⟩

/-- C7: `pdf_context` accumulation — after a second upload the previous context
is an unchanged prefix of the new one, and the new context contains the first
document's text before the second document's text. -/
theorem pdf_context_append_only (ctx0 f1 t1 f2 t2 : String) :
    listPrefixOf (upload_pdf_update ctx0 f1 t1).data
        (upload_pdf_update (upload_pdf_update ctx0 f1 t1) f2 t2).data = true ∧
    ∃ u v, upload_pdf_update (upload_pdf_update ctx0 f1 t1) f2 t2 = u ++ t1 ++ v ++ t2 := by
  constructor
  · have hdata : (upload_pdf_update (upload_pdf_update ctx0 f1 t1) f2 t2).data
        = (upload_pdf_update ctx0 f1 t1).data ++ (docSeparator f2).data ++ t2.data := by
      simp [upload_pdf_update]
    rw [hdata, List.append_assoc]
    exact listPrefixOf_append _ _ _ (listPrefixOf_refl _)
  · exact ⟨ctx0 ++ docSeparator f1, docSeparator f2, rfl⟩

/-- C9: in the synchronous POST /chat endpoint, the 403 `Access denied to
conversation` raised when the ownership check finds no row is caught by the
surrounding history-fetch handler: the request proceeds with empty history,
the agent is invoked, both new messages are appended under the supplied
conversation id, and the response status is 200 — never 403. -/
theorem chat_endpoint_403_swallowed (cid userMessage : String)
    (messagesFetch : Except PyError (List (String × String)))
    (agent : List (String × String) → String) (createdId : Option String) :
    historyFetchBlock (Except.ok false) messagesFetch
        = Except.error (PyError.http 403 "Access denied to conversation") ∧
    chat_endpoint (some cid) true (Except.ok false) messagesFetch agent userMessage createdId
        = ⟨200, agent [("user", userMessage)],
            [(cid, "user", userMessage), (cid, "assistant", agent [("user", userMessage)])]⟩ :=
  ⟨rfl, rfl⟩

/-- C2 counterexample: when the index is unconfigured (`resources.get_index()`
falsy), `legal_assistant` returns the apology of line 310, whose text does NOT
contain the `[FALLBACK_SIGNAL]` marker — refuting the claim for the
"index unreachable/unconfigured" case. -/
theorem legal_assistant_noIndex_lacks_marker :
    containsSubstr FALLBACK_SIGNAL
      (vector_search_response "thủ tục xin visa" VectorOutcome.noIndex) = false := by
  decide

/-- C2 amended: whenever the index returns zero matches, or an exception occurs
during embedding or querying, `legal_assistant`'s vector-search phase returns
(never raises — the modelled phase is a total function of the outcome) a text
containing `[FALLBACK_SIGNAL]`; the unconfigured-index branch instead returns an
apology without the marker (see the counterexample), also without raising. -/
theorem legal_assistant_fallback_signal (query err : String) :
    containsSubstr FALLBACK_SIGNAL (vector_search_response query (VectorOutcome.results [])) = true ∧
    containsSubstr FALLBACK_SIGNAL (vector_search_response query (VectorOutcome.raised err)) = true := by
  constructor
  · show containsSubstr FALLBACK_SIGNAL (noMatchesText query) = true
    unfold containsSubstr
    apply listContains_of_listPrefixOf
    have hd : (noMatchesText query).data =
        "[FALLBACK_SIGNAL] Tôi chưa tìm thấy thông tin chi tiết về \"".data ++
          (query.data ++
            "\" trong cơ sở dữ liệu luật nội bộ.\n                \nBạn vui lòng sử dụng công cụ `web_search` để tìm kiếm thông tin mới nhất trên internet hoặc hỏi về các dịch vụ phổ biến: GPLX, Kết hôn, Ly hôn, ĐK Kinh doanh.".data) := by
      simp [noMatchesText, String.data_append]
    rw [hd]
    exact listPrefixOf_append _ _ _ (by decide)
  · show containsSubstr FALLBACK_SIGNAL vectorErrorText = true
    decide

/-- C5: Token ordering invariant — for every turn (any agent-event stream, any
point of failure or disconnect, any checkpointed state), the outward event
sequence is `meta? start (status|token)* (end|error)?` in production order: it
decomposes as the optional `meta`, then `start`, then a block of only `status`
and `token` events, then an optional terminal which is a single `end` or a
single `error`; consequently `end` and `error` are mutually exclusive and appear
at most once in total. -/
theorem websocket_event_shape (newConv : Option String) (stream : List AgentEvent)
    (ending : TurnEnding) (finalStateMessages : Option (List String)) :
    (∃ mids term,
      websocketTurn newConv stream ending finalStateMessages =
        metaEvents newConv ++ OutEvent.start :: (mids ++ term) ∧
      (∀ e ∈ mids, isMid e = true) ∧
      (term = [] ∨ (∃ c, term = [OutEvent.end_ c]) ∨ (∃ m, term = [OutEvent.error m]))) ∧
    ((websocketTurn newConv stream ending finalStateMessages).filter isEndEvent).length +
      ((websocketTurn newConv stream ending finalStateMessages).filter isErrorEvent).length ≤ 1 := by
  cases ending with
  | disconnectedAfter k =>
    have heq : websocketTurn newConv stream (TurnEnding.disconnectedAfter k) finalStateMessages =
        metaEvents newConv ++ OutEvent.start :: ((processEvents (stream.take k)).1 ++ []) := by
      simp [websocketTurn]
    refine ⟨⟨(processEvents (stream.take k)).1, [], heq, processEvents_mid _, Or.inl rfl⟩, ?_⟩
    rw [heq]
    exact shape_count newConv _ _ (processEvents_mid _) (by simp)
  | failedAfter k err =>
    have heq : websocketTurn newConv stream (TurnEnding.failedAfter k err) finalStateMessages =
        metaEvents newConv ++ OutEvent.start ::
          ((processEvents (stream.take k)).1 ++
            [OutEvent.error ("Lỗi hệ thống AI: " ++ err.take 100)]) := rfl
    refine ⟨⟨(processEvents (stream.take k)).1, [OutEvent.error ("Lỗi hệ thống AI: " ++ err.take 100)],
      heq, processEvents_mid _, Or.inr (Or.inr ⟨_, rfl⟩)⟩, ?_⟩
    rw [heq]
    exact shape_count newConv _ _ (processEvents_mid _) (by simp [isEndEvent, isErrorEvent])
  | completed =>
    cases hfb : noStreamFallback (processEvents stream) finalStateMessages with
    | none =>
      have heq : websocketTurn newConv stream TurnEnding.completed finalStateMessages =
          metaEvents newConv ++ OutEvent.start ::
            ((processEvents stream).1 ++ [OutEvent.end_ (processEvents stream).2.1]) := by
        simp [websocketTurn, hfb]
      refine ⟨⟨(processEvents stream).1, [OutEvent.end_ (processEvents stream).2.1],
        heq, processEvents_mid _, Or.inr (Or.inl ⟨_, rfl⟩)⟩, ?_⟩
      rw [heq]
      exact shape_count newConv _ _ (processEvents_mid _) (by simp [isEndEvent, isErrorEvent])
    | some c =>
      have heq : websocketTurn newConv stream TurnEnding.completed finalStateMessages =
          metaEvents newConv ++ OutEvent.start ::
            (((processEvents stream).1 ++ [OutEvent.token c]) ++ [OutEvent.end_ c]) := by
        simp [websocketTurn, hfb]
      have hmids : ∀ e ∈ (processEvents stream).1 ++ [OutEvent.token c], isMid e = true := by
        intro e he
        rcases List.mem_append.mp he with h | h
        · exact processEvents_mid _ e h
        · simp only [List.mem_singleton] at h
          subst h; rfl
      refine ⟨⟨(processEvents stream).1 ++ [OutEvent.token c], [OutEvent.end_ c],
        heq, hmids, Or.inr (Or.inl ⟨_, rfl⟩)⟩, ?_⟩
      rw [heq]
      exact shape_count newConv _ _ hmids (by simp [isEndEvent, isErrorEvent])

/-- C6: No-stream fallback — if the stream produced zero incremental token
fragments but the finalized state's last message content `c` is non-empty, the
turn emits `c` as a single `token` event immediately before the `end` event, so
the client receives a token before `end`. -/
theorem no_stream_fallback (newConv : Option String) (stream : List AgentEvent)
    (msgs : List String) (c : String)
    (hzero : (processEvents stream).2.2 = 0)
    (hlast : msgs.getLast? = some c) (hc : c ≠ "") :
    ∃ pre, websocketTurn newConv stream TurnEnding.completed (some msgs)
        = pre ++ [OutEvent.token c, OutEvent.end_ c] := by
  have hfull : (processEvents stream).2.1 = "" := processEvents_zero_full stream hzero
  have hfb : noStreamFallback (processEvents stream) (some msgs) = some c := by
    simp [noStreamFallback, hzero, hfull, hlast, hc]
  refine ⟨metaEvents newConv ++ OutEvent.start :: (processEvents stream).1, ?_⟩
  simp [websocketTurn, hfb]

/-- C6 witness: an empty stream with finalized content "xin chào" yields a
`token` carrying it right before `end`. -/
theorem no_stream_fallback_witness :
    (processEvents ([] : List AgentEvent)).2.2 = 0 ∧
    (["xin chào"] : List String).getLast? = some "xin chào" ∧
    "xin chào" ≠ "" ∧
    ∃ pre, websocketTurn none [] TurnEnding.completed (some ["xin chào"])
        = pre ++ [OutEvent.token "xin chào", OutEvent.end_ "xin chào"] :=
  ⟨rfl, rfl, by decide,
    no_stream_fallback none [] ["xin chào"] "xin chào" rfl rfl (by decide)⟩

/-- C8 counterexample: a conversation holding 21 messages with ascending
timestamps — the history query (`order created_at ascending, limit 20`) returns
the EARLIEST 20 rows, which is not the window of the 20 most recent messages,
and the most recent message (timestamp 20) is absent from the fetched history. -/
theorem fetchHistory_not_most_recent :
    fetchHistory ((List.range 21).map (fun i => ⟨i, "user", "m"⟩)) ≠
      mostRecentWindow ((List.range 21).map (fun i => ⟨i, "user", "m"⟩)) ∧
    (⟨20, "user", "m"⟩ : DBMessage) ∉
      fetchHistory ((List.range 21).map (fun i => ⟨i, "user", "m"⟩)) := by
  decide

/-- C8 amended: when a conversation id is supplied, both endpoints fetch the
conversation's history ordered by `created_at` bounded to at most 20 messages —
the earliest 20, not the most recent 20 — reading only stored rows, and their
write access appends the new messages after the stored rows, never updating or
reordering past messages. -/
theorem history_bounded_window (stored newMessages : List DBMessage) :
    (fetchHistory stored).length ≤ 20 ∧
    (∀ m ∈ fetchHistory stored, m ∈ stored) ∧
    saveMessages stored newMessages = stored ++ newMessages := by
  refine ⟨?_, ?_, rfl⟩
  · simp [fetchHistory]
  · intro m hm
    have h1 : m ∈ sortByCreatedAt stored := List.mem_of_mem_take hm
    exact (mem_sortByCreatedAt m stored).mp h1

/-- C10: `calculate_fee` depends only on its `service` argument — the declared
`details` parameter never influences the returned fee table or the not-found
response. -/
theorem calculate_fee_ignores_details (service d1 d2 : String) :
    calculate_fee service d1 = calculate_fee service d2 := rfl

end LegalBot
